import Mathlib

/-!
Shallow embedding of the bulk policy-enforcement scripts of the
cost-optimization-toy repository, together with proofs of the spec claims.

Sources embedded:
* src/cloudwatch/cw_log_grp_ret_target_1m_2m_3m.py  (targeted retention update)
* src/cloudwatch/cloudwatch_log_grp_rete_all_1m_non_prod.py  (unconditional retention update)
* src/S3/s3_expire.py  (expire-only lifecycle policy from a CSV bucket list)
* src/S3/s3_glacier_expire.py  (transition-then-expire lifecycle policy)
* src/S3/s3_policy_set_prompts.py  (user-parameterised transition policy)

The AWS SDK is abstracted into environments recording, per profile / region /
resource, what each call would return; runs are modelled as traces of the
calls the scripts issue, paired with a Bool that is true when the processing
completed without an abort (an uncaught exception at that level).
-/

namespace CostOpt

/-! ## String primitives

Python's str.strip(), csv field splitting and int() are modelled by
structurally recursive functions over the character list of a string. -/

/-- str.strip(): drop whitespace from both ends of a character list. -/
def stripChars (cs : List Char) : List Char :=
  ((cs.dropWhile Char.isWhitespace).reverse.dropWhile Char.isWhitespace).reverse

/-- str.strip() on strings. -/
def strip (s : String) : String :=
  String.mk (stripChars s.data)

/-- Split a character list into fields at commas (the csv.reader field
splitting for the unquoted CSV files these scripts consume). -/
def splitFieldsAux (cur : List Char) : List Char → List (List Char)
  | [] => [cur.reverse]
  | c :: rest =>
    if c = ',' then cur.reverse :: splitFieldsAux [] rest
    else splitFieldsAux (c :: cur) rest

/-- int() on the all-digit strings get_lifecycle_input validates. -/
def parseNat (s : String) : Nat :=
  s.data.foldl (fun n c => n * 10 + (c.toNat - 48)) 0

/-! ## CloudWatch data model -/

/-- One record of a describe-log-groups page: the log-group name and the
optional retentionInDays field (absent when the key is missing). -/
structure LogGroup where
  logGroupName : String
  retentionInDays : Option Nat
deriving DecidableEq

/-- RETENTION_DAYS constant of both CloudWatch scripts. -/
def RETENTION_DAYS : Nat := 30

/-- TARGET_RETENTION_DAYS constant of cw_log_grp_ret_target_1m_2m_3m.py. -/
def TARGET_RETENTION_DAYS : Nat := 14

/-- The comparator of set_retention_for_log_groups in
cw_log_grp_ret_target_1m_2m_3m.py: the Python condition
`'retentionInDays' in log_group and log_group['retentionInDays'] == trigger`,
with the absent key modelled as `none`. -/
def retentionMatches (lg : LogGroup) (trigger : Nat) : Bool :=
  match lg.retentionInDays with
  | some d => d == trigger
  | none => false

/-- Events issued by the CloudWatch scripts: entering a region (the
per-region log line before set_retention_for_log_groups is called),
a put_retention_policy call carrying the days sent and whether the
provider accepted it, and the skip log line of the targeted variant. -/
inductive CwEvent where
  | enterRegion (profile region : String)
  | putRetention (profile region group : String) (days : Nat) (ok : Bool)
  | skipGroup (profile region group : String)
deriving DecidableEq

/-- Environment for the CloudWatch scripts: the pages the paginator delivers
for a profile/region, whether pagination completes without raising after
those pages, and whether each put_retention_policy call succeeds. -/
structure CwEnv where
  pages : String → String → List (List LogGroup)
  listingOk : String → String → Bool
  putOk : String → String → String → Bool

/-- Body of the per-log-group loop of set_retention_for_log_groups in
cw_log_grp_ret_target_1m_2m_3m.py: put RETENTION_DAYS when the comparator
matches TARGET_RETENTION_DAYS, otherwise log a skip.  The Bool is false when
the put raised. -/
def processRecord (env : CwEnv) (p r : String) (lg : LogGroup) :
    List CwEvent × Bool :=
  if retentionMatches lg TARGET_RETENTION_DAYS then
    if env.putOk p r lg.logGroupName then
      ([CwEvent.putRetention p r lg.logGroupName RETENTION_DAYS true], true)
    else
      ([CwEvent.putRetention p r lg.logGroupName RETENTION_DAYS false], false)
  else
    ([CwEvent.skipGroup p r lg.logGroupName], true)

/-- The groups of one page, processed in order; an exception from a put
aborts the rest of the page. -/
def processGroups (env : CwEnv) (p r : String) :
    List LogGroup → List CwEvent × Bool
  | [] => ([], true)
  | lg :: rest =>
    let step := processRecord env p r lg
    if step.2 then
      let tail := processGroups env p r rest
      (step.1 ++ tail.1, tail.2)
    else
      (step.1, false)

/-- All delivered pages, processed in order; an abort inside a page stops
the region. -/
def processPages (env : CwEnv) (p r : String) :
    List (List LogGroup) → List CwEvent × Bool
  | [] => ([], true)
  | page :: rest =>
    let step := processGroups env p r page
    if step.2 then
      let tail := processPages env p r rest
      (step.1 ++ tail.1, tail.2)
    else
      (step.1, false)

/-- set_retention_for_log_groups of cw_log_grp_ret_target_1m_2m_3m.py for one
profile/region: process every delivered page; if the paginator then raises
mid-listing (listingOk false) the region fails after the delivered pages
were already processed. -/
def set_retention_for_log_groups_target (env : CwEnv) (p r : String) :
    List CwEvent × Bool :=
  let run := processPages env p r (env.pages p r)
  if run.2 then (run.1, env.listingOk p r) else (run.1, false)

/-- Body of the per-log-group loop of set_retention_for_log_groups in
cloudwatch_log_grp_rete_all_1m_non_prod.py: put RETENTION_DAYS for every
group regardless of its current retention. -/
def processRecordAll (env : CwEnv) (p r : String) (lg : LogGroup) :
    List CwEvent × Bool :=
  if env.putOk p r lg.logGroupName then
    ([CwEvent.putRetention p r lg.logGroupName RETENTION_DAYS true], true)
  else
    ([CwEvent.putRetention p r lg.logGroupName RETENTION_DAYS false], false)

/-- Page processing of the unconditional (non-prod) variant. -/
def processGroupsAll (env : CwEnv) (p r : String) :
    List LogGroup → List CwEvent × Bool
  | [] => ([], true)
  | lg :: rest =>
    let step := processRecordAll env p r lg
    if step.2 then
      let tail := processGroupsAll env p r rest
      (step.1 ++ tail.1, tail.2)
    else
      (step.1, false)

/-- Delivered pages of the unconditional variant. -/
def processPagesAll (env : CwEnv) (p r : String) :
    List (List LogGroup) → List CwEvent × Bool
  | [] => ([], true)
  | page :: rest =>
    let step := processGroupsAll env p r page
    if step.2 then
      let tail := processPagesAll env p r rest
      (step.1 ++ tail.1, tail.2)
    else
      (step.1, false)

/-- set_retention_for_log_groups of cloudwatch_log_grp_rete_all_1m_non_prod.py. -/
def set_retention_for_log_groups_all (env : CwEnv) (p r : String) :
    List CwEvent × Bool :=
  let run := processPagesAll env p r (env.pages p r)
  if run.2 then (run.1, env.listingOk p r) else (run.1, false)

/-- The inner region loop of process_log_groups (identical in both
CloudWatch scripts): log the region, run the region function, and on an
exception abort the remaining regions of this profile (the exception
propagates to the per-profile handler). -/
def runRegions (regionFn : String → String → List CwEvent × Bool)
    (p : String) : List String → List CwEvent × Bool
  | [] => ([], true)
  | r :: rs =>
    let run := regionFn p r
    if run.2 then
      let tail := runRegions regionFn p rs
      (CwEvent.enterRegion p r :: run.1 ++ tail.1, tail.2)
    else
      (CwEvent.enterRegion p r :: run.1, false)

/-- The outer profile loop of process_log_groups: each profile's regions are
run under a try/except that logs the failure and continues with the next
profile.  The Bool is true when no profile aborted. -/
def process_log_groups (regionFn : String → String → List CwEvent × Bool)
    (regions : List String) : List String → List CwEvent × Bool
  | [] => ([], true)
  | p :: ps =>
    let run := runRegions regionFn p regions
    let tail := process_log_groups regionFn regions ps
    (run.1 ++ tail.1, run.2 && tail.2)

/-- Process exit status of the CloudWatch scripts: module-level code calls
process_log_groups() (which swallows every per-profile exception) and then
prints; the interpreter exits with status 0. -/
def cwExitCode (regionFn : String → String → List CwEvent × Bool)
    (regions profiles : List String) : Nat :=
  let _ := process_log_groups regionFn regions profiles
  0

/-! ## S3 lifecycle-policy data model -/

/-- One entry of the Rules[].Transitions list of a lifecycle configuration. -/
structure TransitionRule where
  days : Nat
  storageClass : String
deriving DecidableEq

/-- One entry of the Rules[].NoncurrentVersionTransitions list. -/
structure NoncurrentTransitionRule where
  noncurrentDays : Nat
  storageClass : String
deriving DecidableEq

/-- One rule of a lifecycle configuration dictionary, as the three S3
scripts build it (Filter is always the empty dict and is omitted). -/
structure LifecycleRule where
  id : String
  status : String
  transitions : List TransitionRule
  expirationDays : Option Nat
  noncurrentVersionTransitions : List NoncurrentTransitionRule
  noncurrentVersionExpirationDays : Option Nat
deriving DecidableEq

/-- A lifecycle configuration dictionary: the Rules list. -/
structure LifecycleConfig where
  rules : List LifecycleRule
deriving DecidableEq

/-- LIFECYCLE_DAYS constant of s3_expire.py. -/
def LIFECYCLE_DAYS : Nat := 60

/-- The lifecycle_config dictionary built by create_lifecycle_policy in
s3_expire.py: expire-only, no transition step. -/
def create_lifecycle_policy_expire (bucket : String) : LifecycleConfig :=
  { rules := [
      { id := bucket ++ "_lifecycle_policy_expire"
        status := "Enabled"
        transitions := []
        expirationDays := some LIFECYCLE_DAYS
        noncurrentVersionTransitions := []
        noncurrentVersionExpirationDays := some LIFECYCLE_DAYS }] }

/-- LIFECYCLE_DAYS_TO_GLACIER configuration constant of s3_glacier_expire.py. -/
def LIFECYCLE_DAYS_TO_GLACIER : Nat := 180

/-- LIFECYCLE_DAYS_TO_EXPIRATION configuration constant of s3_glacier_expire.py. -/
def LIFECYCLE_DAYS_TO_EXPIRATION : Nat := 365

/-- LIFECYCLE_NONCURRENT_DAYS_TO_GLACIER configuration constant of
s3_glacier_expire.py. -/
def LIFECYCLE_NONCURRENT_DAYS_TO_GLACIER : Nat := 180

/-- LIFECYCLE_NONCURRENT_DAYS_TO_EXPIRATION configuration constant of
s3_glacier_expire.py. -/
def LIFECYCLE_NONCURRENT_DAYS_TO_EXPIRATION : Nat := 365

/-- GLACIER_STORAGE_CLASS configuration constant of s3_glacier_expire.py. -/
def GLACIER_STORAGE_CLASS : String := "GLACIER_IR"

/-- The lifecycle_config dictionary built by create_lifecycle_policy in
s3_glacier_expire.py, as a function of the module-level configuration
constants it reads (daysToGlacier etc.); the shipped values are the
constants above.  The function performs no validation of the day counts. -/
def create_lifecycle_policy_glacier (bucket : String)
    (daysToGlacier daysToExpiration ncDaysToGlacier ncDaysToExpiration : Nat)
    (storageClass : String) : LifecycleConfig :=
  { rules := [
      { id := bucket ++ "_lifecycle_policy"
        status := "Enabled"
        transitions := [{ days := daysToGlacier, storageClass := storageClass }]
        expirationDays := some daysToExpiration
        noncurrentVersionTransitions :=
          [{ noncurrentDays := ncDaysToGlacier, storageClass := storageClass }]
        noncurrentVersionExpirationDays := some ncDaysToExpiration }] }

/-- The lifecycle_config dictionary built by create_lifecycle_policy in
s3_policy_set_prompts.py from the user-chosen transition_days and
storage_class: expiration and non-current expiration are transition_days
plus 365, the non-current transition uses transition_days itself. -/
def create_lifecycle_policy_prompts (bucket : String)
    (transition_days : Nat) (storage_class : String) : LifecycleConfig :=
  { rules := [
      { id := bucket ++ "_lifecycle_policy"
        status := "Enabled"
        transitions := [{ days := transition_days, storageClass := storage_class }]
        expirationDays := some (transition_days + 365)
        noncurrentVersionTransitions :=
          [{ noncurrentDays := transition_days, storageClass := storage_class }]
        noncurrentVersionExpirationDays := some (transition_days + 365) }] }

/-! ## S3 run model -/

/-- Events issued by the S3 scripts' process_buckets: a head_bucket call
that succeeded, one that raised ClientError, and a
put_bucket_lifecycle_configuration call carrying the submitted
configuration and whether the provider accepted it. -/
inductive S3Event where
  | headOk (profile bucket : String)
  | headFail (profile bucket : String)
  | putLifecycle (profile bucket : String) (cfg : LifecycleConfig) (ok : Bool)
deriving DecidableEq

/-- Environment for the S3 scripts: whether head_bucket succeeds and whether
put_bucket_lifecycle_configuration succeeds, per profile and bucket. -/
structure S3Env where
  headSucceeds : String → String → Bool
  putSucceeds : String → String → Bool

/-- The inner profile loop of process_buckets for one bucket name: for each
profile, head_bucket; on success submit the built lifecycle configuration
(a put failure re-raises and aborts the run), on ClientError log and raise
(aborting the run).  The Bool is true when no exception was raised. -/
def applyToBucketProfiles (buildCfg : String → LifecycleConfig) (env : S3Env)
    (bucket : String) : List String → List S3Event × Bool
  | [] => ([], true)
  | p :: ps =>
    if env.headSucceeds p bucket then
      if env.putSucceeds p bucket then
        let tail := applyToBucketProfiles buildCfg env bucket ps
        (S3Event.headOk p bucket ::
          S3Event.putLifecycle p bucket (buildCfg bucket) true :: tail.1, tail.2)
      else
        ([S3Event.headOk p bucket,
          S3Event.putLifecycle p bucket (buildCfg bucket) false], false)
    else
      ([S3Event.headFail p bucket], false)

/-- The row loop of process_buckets (identical in the three S3 scripts):
bucket_name = row[0].strip() — an IndexError on an empty csv row aborts the
run — blank names are skipped, and each non-blank bucket is processed for
every profile before the next row is read.  The Bool is true when no
exception was raised. -/
def process_buckets (buildCfg : String → LifecycleConfig) (env : S3Env)
    (profiles : List String) : List (List String) → List S3Event × Bool
  | [] => ([], true)
  | row :: rest =>
    match row with
    | [] => ([], false)
    | f :: _ =>
      let bucket := strip f
      if bucket = "" then process_buckets buildCfg env profiles rest
      else
        let run := applyToBucketProfiles buildCfg env bucket profiles
        if run.2 then
          let tail := process_buckets buildCfg env profiles rest
          (run.1 ++ tail.1, tail.2)
        else
          (run.1, false)

/-- Python csv.reader on one input line of the unquoted CSV files these
scripts consume: a fully empty line yields the empty row, otherwise the
line splits on commas. -/
def csvReadLine (line : String) : List String :=
  if line = "" then [] else (splitFieldsAux [] line.data).map String.mk

/-- csv.reader over the whole file, given as its list of lines. -/
def csvReader (lines : List String) : List (List String) :=
  lines.map csvReadLine

/-- The resolved target sequence of the S3 scripts' row loop, in isolation:
row[0].strip() per row (IndexError on an empty row), blank names skipped,
order preserved. -/
def resolveTargets : List (List String) → Except Unit (List String)
  | [] => Except.ok []
  | row :: rest =>
    match row with
    | [] => Except.error ()
    | f :: _ =>
      let bucket := strip f
      if bucket = "" then resolveTargets rest
      else (resolveTargets rest).map (fun bs => bucket :: bs)

/-- main of the S3 scripts: process_buckets under a try/except; any
exception (missing file, IndexError, inaccessible bucket, rejected put)
reaches sys.exit(1), otherwise the process exits 0.  The file is `none`
when it cannot be opened (FileNotFoundError). -/
def s3ExitCode (buildCfg : String → LifecycleConfig) (env : S3Env)
    (profiles : List String) (file : Option (List String)) : Nat :=
  match file with
  | none => 1
  | some lines =>
    if (process_buckets buildCfg env profiles (csvReader lines)).2 then 0 else 1

/-! ## Interactive parameter collection of s3_policy_set_prompts.py -/

/-- One input-validation while loop of get_lifecycle_input: keep reading
entries from the input stream until one satisfies the membership check;
`none` models the stream running out (EOFError). -/
def promptLoop (valid : String → Bool) : List String → Option (String × List String)
  | [] => none
  | s :: rest => if valid s then some (s, rest) else promptLoop valid rest

/-- get_lifecycle_input of s3_policy_set_prompts.py over an explicit input
stream: loop until the transition days entry is one of 30/60/90/180/360,
then loop until the storage class is GLACIER or GLACIER_IR, and return
int(transition_days) together with the storage class. -/
def get_lifecycle_input (inputs : List String) : Option (Nat × String) :=
  match promptLoop
      (fun s => (["30", "60", "90", "180", "360"] : List String).contains s) inputs with
  | none => none
  | some (td, rest) =>
    match promptLoop
        (fun s => (["GLACIER", "GLACIER_IR"] : List String).contains s) rest with
    | none => none
    | some (sc, _) => some (parseNat td, sc)

/-! ## Derived notions used to state the claims -/

/-- The §4.3 invariant on a built configuration: every transition day count
is strictly below the rule's expiration day count whenever the latter is
present. -/
def transitionBeforeExpiration (cfg : LifecycleConfig) : Bool :=
  cfg.rules.all fun rule =>
    rule.transitions.all fun t =>
      match rule.expirationDays with
      | some e => decide (t.days < e)
      | none => true

/-- The identity scope (profile) an S3 event belongs to. -/
def eventProfile : S3Event → String
  | S3Event.headOk p _ => p
  | S3Event.headFail p _ => p
  | S3Event.putLifecycle p _ _ _ => p

/-- A scope sequence is grouped (scope-major) when all occurrences of one
scope are consecutive: no scope reappears after a different scope has been
visited. -/
def scopesGrouped (l : List String) : Prop :=
  ∀ i j k : Fin l.length, i < j → j < k → l.get i = l.get k → l.get i = l.get j

instance scopesGroupedDecidable (l : List String) : Decidable (scopesGrouped l) := by
  unfold scopesGrouped
  infer_instance

/-- Checker that every put_bucket_lifecycle_configuration event in a trace
is preceded by a successful head_bucket event for the same profile and
bucket; `seen` accumulates the (profile, bucket) pairs whose existence
check has succeeded so far. -/
def putsGuardedFrom (seen : List (String × String)) : List S3Event → Bool
  | [] => true
  | S3Event.headOk p b :: rest => putsGuardedFrom ((p, b) :: seen) rest
  | S3Event.headFail _ _ :: rest => putsGuardedFrom seen rest
  | S3Event.putLifecycle p b _ _ :: rest =>
    seen.contains (p, b) && putsGuardedFrom seen rest

/-- The target sequence a row list resolves to: first field of each record,
trimmed, blanks dropped, order preserved. -/
def targetsOf (rows : List (List String)) : List String :=
  ((rows.filterMap List.head?).map strip).filter (fun b => !(b == ""))

/-! ## Concrete environments used in counterexamples and witnesses -/

/-- CloudWatch environment in which region r1 delivers one page with a log
group at 14 days retention and then fails mid-listing; every other region
lists one empty page successfully; every put succeeds. -/
def cwEnvListingFails : CwEnv :=
  { pages := fun _ r =>
      if r = "r1" then [[{ logGroupName := "g1", retentionInDays := some 14 }]]
      else [[]]
    listingOk := fun _ r => !(r == "r1")
    putOk := fun _ _ _ => true }

/-- S3 environment in which every head_bucket and every put succeeds. -/
def envAllOk : S3Env :=
  { headSucceeds := fun _ _ => true, putSucceeds := fun _ _ => true }

/-- S3 environment in which head_bucket fails exactly for bucket b2. -/
def envB2Fails : S3Env :=
  { headSucceeds := fun _ b => !(b == "b2"), putSucceeds := fun _ _ => true }

/-! ## Helper lemmas -/

/-- The comparator matches exactly when the field is present with the
trigger value. -/
theorem retentionMatches_eq_true_iff (lg : LogGroup) (t : Nat) :
    retentionMatches lg t = true ↔ lg.retentionInDays = some t := by
  unfold retentionMatches
  cases lg.retentionInDays <;> simp

/-! ## Claim C1 -/

/-- C1: in conditional mode, for every observed log-group record and every
trigger value, the comparator of set_retention_for_log_groups matches
exactly when retentionInDays is present and equal to the trigger; and the
per-record step emits a put_retention_policy call exactly when the record's
retentionInDays equals TARGET_RETENTION_DAYS, emitting a skip (and no
update) otherwise. -/
theorem retention_comparator_applies_iff_trigger
    (env : CwEnv) (p r : String) (lg : LogGroup) (trigger : Nat) :
    (retentionMatches lg trigger = true ↔ lg.retentionInDays = some trigger) ∧
    ((∃ ok : Bool, (processRecord env p r lg).1 =
        [CwEvent.putRetention p r lg.logGroupName RETENTION_DAYS ok]) ↔
      lg.retentionInDays = some TARGET_RETENTION_DAYS) ∧
    ((processRecord env p r lg).1 = [CwEvent.skipGroup p r lg.logGroupName] ↔
      lg.retentionInDays ≠ some TARGET_RETENTION_DAYS) := by
  refine ⟨retentionMatches_eq_true_iff lg trigger, ?_, ?_⟩
  · unfold processRecord
    by_cases hm : retentionMatches lg TARGET_RETENTION_DAYS = true
    · rw [retentionMatches_eq_true_iff] at hm
      by_cases hp : env.putOk p r lg.logGroupName = true <;>
        simp [retentionMatches_eq_true_iff, hm, hp]
    · rw [retentionMatches_eq_true_iff] at hm
      simp [retentionMatches_eq_true_iff, hm]
  · unfold processRecord
    by_cases hm : retentionMatches lg TARGET_RETENTION_DAYS = true
    · rw [retentionMatches_eq_true_iff] at hm
      by_cases hp : env.putOk p r lg.logGroupName = true <;>
        simp [retentionMatches_eq_true_iff, hm, hp]
    · rw [retentionMatches_eq_true_iff] at hm
      simp [retentionMatches_eq_true_iff, hm]

/-! ## Claim C2 -/

/-- C2 (code bug): on a readable file containing a fully empty line,
csv.reader yields an empty row, and row[0] raises IndexError before the
blank-record guard can skip it: resolution aborts instead of excluding the
blank record. -/
theorem resolve_targets_raises_on_empty_line :
    resolveTargets (csvReader ["bucket-a", "", "bucket-b"]) = Except.error () ∧
    (process_buckets create_lifecycle_policy_expire envAllOk ["p1"]
      (csvReader ["bucket-a", "", "bucket-b"])).2 = false := by
  exact ⟨rfl, rfl⟩

/-! ## Claim C3 -/

/-- C3 counterexample: with the configuration constants set to
daysToGlacier = 400 and daysToExpiration = 365 (both present, transition
not below expiration), create_lifecycle_policy of s3_glacier_expire.py does
not fail with InvalidPolicy: process_buckets submits a configuration whose
transition day count is not below its expiration day count. -/
theorem glacier_builder_submits_transition_after_expiration :
    (S3Event.putLifecycle "acct" "bucket-x"
        (create_lifecycle_policy_glacier "bucket-x" 400 365 400 365 "GLACIER_IR") true) ∈
      (process_buckets
        (fun b => create_lifecycle_policy_glacier b 400 365 400 365 "GLACIER_IR")
        envAllOk ["acct"] [["bucket-x"]]).1 ∧
    transitionBeforeExpiration
      (create_lifecycle_policy_glacier "bucket-x" 400 365 400 365 "GLACIER_IR") = false := by
  exact ⟨by decide, rfl⟩

/-- C3 amended: neither builder validates the transition/expiration
relationship, but every configuration actually constructible from the
shipped configuration constants and the prompt-validated inputs satisfies
transitionAfterDays < expirationDays: the expire-only builder has no
transitions, the glacier builder ships 180 < 365, and the prompts builder
derives expiration as transition_days + 365. -/
theorem shipped_policies_satisfy_transition_before_expiration
    (bucket : String) (td : Nat) (sc : String) :
    transitionBeforeExpiration (create_lifecycle_policy_expire bucket) = true ∧
    transitionBeforeExpiration
      (create_lifecycle_policy_glacier bucket LIFECYCLE_DAYS_TO_GLACIER
        LIFECYCLE_DAYS_TO_EXPIRATION LIFECYCLE_NONCURRENT_DAYS_TO_GLACIER
        LIFECYCLE_NONCURRENT_DAYS_TO_EXPIRATION GLACIER_STORAGE_CLASS) = true ∧
    transitionBeforeExpiration (create_lifecycle_policy_prompts bucket td sc) = true := by
  refine ⟨rfl, rfl, ?_⟩
  simp only [transitionBeforeExpiration, create_lifecycle_policy_prompts,
    List.all_cons, List.all_nil, Bool.and_true, decide_eq_true_eq]
  omega

/-! ## Claim C4 -/

/-- C4: the prompts-variant builder sets current-version expiration and
non-current-version expiration to transition_days + 365 and the
non-current-version transition day count to transition_days itself, for
every chosen transition_days; the non-current day counts are forced by the
current-version value. -/
theorem prompts_policy_couples_noncurrent_to_current
    (bucket : String) (td : Nat) (sc : String) :
    ((create_lifecycle_policy_prompts bucket td sc).rules.map
        LifecycleRule.expirationDays = [some (td + 365)]) ∧
    ((create_lifecycle_policy_prompts bucket td sc).rules.map
        LifecycleRule.noncurrentVersionExpirationDays = [some (td + 365)]) ∧
    ((create_lifecycle_policy_prompts bucket td sc).rules.map
        (fun rule => rule.transitions.map TransitionRule.days) = [[td]]) ∧
    ((create_lifecycle_policy_prompts bucket td sc).rules.map
        (fun rule => rule.noncurrentVersionTransitions.map
          NoncurrentTransitionRule.noncurrentDays) = [[td]]) := by
  refine ⟨rfl, rfl, rfl, rfl⟩

/-! ## Claim C6 -/

/-- C6 counterexample: in the CloudWatch scripts a mid-listing failure
aborts the profile scope (the run flag is false), yet the process still
exits with status 0 — process_log_groups swallows every per-profile
exception and the module-level code simply prints and returns. -/
theorem cw_exit_zero_despite_scope_abort :
    (process_log_groups (set_retention_for_log_groups_target cwEnvListingFails)
        ["r1"] ["p"]).2 = false ∧
    cwExitCode (set_retention_for_log_groups_target cwEnvListingFails) ["r1"] ["p"] = 0 := by
  exact ⟨rfl, rfl⟩

/-- C6 amended: only the S3 scripts tie the exit status to aborts — they
exit 0 exactly when process_buckets raised no exception and exit 1 when the
CSV file is unreadable — while the CloudWatch scripts always exit 0, even
when profile scopes aborted. -/
theorem exit_status_reflects_abort_only_in_s3
    (buildCfg : String → LifecycleConfig) (env : S3Env) (profiles : List String)
    (lines : List String) (regionFn : String → String → List CwEvent × Bool)
    (regions cwProfiles : List String) :
    (s3ExitCode buildCfg env profiles (some lines) = 0 ↔
      (process_buckets buildCfg env profiles (csvReader lines)).2 = true) ∧
    s3ExitCode buildCfg env profiles none = 1 ∧
    cwExitCode regionFn regions cwProfiles = 0 := by
  refine ⟨?_, rfl, rfl⟩
  unfold s3ExitCode
  cases h : (process_buckets buildCfg env profiles (csvReader lines)).2 <;> simp [h]

/-! ## Claim C7 -/

/-- C7 counterexample: a discovery failure in region r1 of profile p is not
scoped to that deployment scope alone — the remaining region r2 of the same
profile is never entered. -/
theorem discovery_error_skips_sibling_regions :
    CwEvent.enterRegion "p" "r2" ∉
      (process_log_groups (set_retention_for_log_groups_target cwEnvListingFails)
        ["r1", "r2"] ["p"]).1 := by
  decide

/-- C7 amended: a region failure propagates to the per-profile handler, so
it aborts all remaining deployment scopes of the current identity scope —
the profile's trace is exactly the entry line and trace of the failed
region — while sibling identity scopes are still processed in full. -/
theorem discovery_error_aborts_profile_remainder_not_siblings
    (regionFn : String → String → List CwEvent × Bool)
    (p : String) (ps : List String) (r : String) (rs : List String)
    (h : (regionFn p r).2 = false) :
    runRegions regionFn p (r :: rs) =
      (CwEvent.enterRegion p r :: (regionFn p r).1, false) ∧
    (process_log_groups regionFn (r :: rs) (p :: ps)).1 =
      (CwEvent.enterRegion p r :: (regionFn p r).1) ++
        (process_log_groups regionFn (r :: rs) ps).1 := by
  have h1 : runRegions regionFn p (r :: rs) =
      (CwEvent.enterRegion p r :: (regionFn p r).1, false) := by
    unfold runRegions
    simp [h]
  refine ⟨h1, ?_⟩
  unfold process_log_groups
  rw [h1]
  simp
  cases ps <;> rfl

theorem discovery_error_aborts_profile_remainder_not_siblings_witness :
    runRegions (set_retention_for_log_groups_target cwEnvListingFails) "p" ["r1", "r2"] =
      (CwEvent.enterRegion "p" "r1" ::
        (set_retention_for_log_groups_target cwEnvListingFails "p" "r1").1, false) ∧
    (process_log_groups (set_retention_for_log_groups_target cwEnvListingFails)
        ["r1", "r2"] ["p", "q"]).1 =
      (CwEvent.enterRegion "p" "r1" ::
        (set_retention_for_log_groups_target cwEnvListingFails "p" "r1").1) ++
        (process_log_groups (set_retention_for_log_groups_target cwEnvListingFails)
          ["r1", "r2"] ["q"]).1 :=
  discovery_error_aborts_profile_remainder_not_siblings
    (set_retention_for_log_groups_target cwEnvListingFails) "p" ["q"] "r1" ["r2"]
    (by decide)

/-! ## Claim C8 -/

/-- One step of process_buckets on a non-empty row. -/
theorem process_buckets_cons (buildCfg : String → LifecycleConfig) (env : S3Env)
    (profiles : List String) (f : String) (fs : List String)
    (rest : List (List String)) :
    process_buckets buildCfg env profiles ((f :: fs) :: rest) =
      if strip f = "" then process_buckets buildCfg env profiles rest
      else
        if (applyToBucketProfiles buildCfg env (strip f) profiles).2 then
          ((applyToBucketProfiles buildCfg env (strip f) profiles).1 ++
            (process_buckets buildCfg env profiles rest).1,
           (process_buckets buildCfg env profiles rest).2)
        else ((applyToBucketProfiles buildCfg env (strip f) profiles).1, false) := by
  rfl

/-- One step of the resolved target sequence on a non-empty row. -/
theorem targetsOf_cons (f : String) (fs : List String) (rest : List (List String)) :
    targetsOf ((f :: fs) :: rest) =
      if strip f = "" then targetsOf rest else strip f :: targetsOf rest := by
  by_cases hb : strip f = "" <;> simp [targetsOf, hb]

/-- C8 counterexample: with two identity scopes and two targets, the S3
row loop visits scope p1, then p2, then p1 again — identity scopes are not
handled one at a time. -/
theorem s3_processing_is_not_scope_major :
    ¬ scopesGrouped (((process_buckets create_lifecycle_policy_expire envAllOk
        ["p1", "p2"] [["b1"], ["b2"]]).1).map eventProfile) := by
  decide

/-- C8 amended: the CloudWatch driver is identity-scope-major — its trace
is the concatenation of whole per-profile traces — while the S3 row loop is
target-major: when the run completes without an abort, its trace is the
concatenation, in CSV order, of one block per resolved target in which
every identity scope processes that one target. -/
theorem cw_scope_major_and_s3_target_major
    (regionFn : String → String → List CwEvent × Bool) (regions cwProfiles : List String)
    (buildCfg : String → LifecycleConfig) (env : S3Env) (profiles : List String)
    (rows : List (List String))
    (h : (process_buckets buildCfg env profiles rows).2 = true) :
    (process_log_groups regionFn regions cwProfiles).1 =
      cwProfiles.flatMap (fun p => (runRegions regionFn p regions).1) ∧
    (process_buckets buildCfg env profiles rows).1 =
      (targetsOf rows).flatMap
        (fun b => (applyToBucketProfiles buildCfg env b profiles).1) := by
  constructor
  · induction cwProfiles with
    | nil => rfl
    | cons p ps ih =>
      show (runRegions regionFn p regions).1 ++
          (process_log_groups regionFn regions ps).1 = _
      rw [ih, List.flatMap_cons]
  · induction rows with
    | nil => rfl
    | cons row rest ih =>
      match row with
      | [] =>
        exfalso
        simp [process_buckets] at h
      | f :: fs =>
        rw [process_buckets_cons] at h ⊢
        rw [targetsOf_cons]
        by_cases hb : strip f = ""
        · rw [if_pos hb] at h ⊢
          rw [if_pos hb]
          exact ih h
        · rw [if_neg hb] at h ⊢
          rw [if_neg hb]
          cases hr : (applyToBucketProfiles buildCfg env (strip f) profiles).2 with
          | false =>
            rw [hr] at h
            simp at h
          | true =>
            rw [hr] at h
            simp only [eq_self_iff_true, if_true] at h ⊢
            rw [List.flatMap_cons, ih h]

theorem cw_scope_major_and_s3_target_major_witness :
    (process_log_groups (set_retention_for_log_groups_target cwEnvListingFails)
        ["r1"] ["p"]).1 =
      (["p"] : List String).flatMap
        (fun p => (runRegions (set_retention_for_log_groups_target cwEnvListingFails)
          p ["r1"]).1) ∧
    (process_buckets create_lifecycle_policy_expire envAllOk ["p1", "p2"]
        [["b1"], ["b2"]]).1 =
      (targetsOf [["b1"], ["b2"]]).flatMap
        (fun b => (applyToBucketProfiles create_lifecycle_policy_expire envAllOk
          b ["p1", "p2"]).1) :=
  cw_scope_major_and_s3_target_major
    (set_retention_for_log_groups_target cwEnvListingFails) ["r1"] ["p"]
    create_lifecycle_policy_expire envAllOk ["p1", "p2"] [["b1"], ["b2"]]
    (by decide)

/-! ## Claim C10 -/

/-- The input-validation loop only ever returns an entry accepted by its
membership check. -/
theorem promptLoop_valid (valid : String → Bool) :
    ∀ (inputs : List String) (s : String) (rest : List String),
      promptLoop valid inputs = some (s, rest) → valid s = true := by
  intro inputs
  induction inputs with
  | nil =>
    intro s rest h
    simp [promptLoop] at h
  | cons a as ih =>
    intro s rest h
    by_cases hv : valid a = true
    · simp [promptLoop, hv] at h
      obtain ⟨h1, _⟩ := h
      rw [← h1]
      exact hv
    · simp [promptLoop, hv] at h
      exact ih s rest h

/-- C10: whenever get_lifecycle_input returns, the returned transition day
count is one of 30, 60, 90, 180 or 360 and the returned storage class is
exactly GLACIER or GLACIER_IR. -/
theorem lifecycle_input_returns_validated_values
    (inputs : List String) (d : Nat) (sc : String)
    (h : get_lifecycle_input inputs = some (d, sc)) :
    (d = 30 ∨ d = 60 ∨ d = 90 ∨ d = 180 ∨ d = 360) ∧
    (sc = "GLACIER" ∨ sc = "GLACIER_IR") := by
  unfold get_lifecycle_input at h
  cases h1 : promptLoop
      (fun s => (["30", "60", "90", "180", "360"] : List String).contains s) inputs with
  | none =>
    rw [h1] at h
    simp at h
  | some pr =>
    rw [h1] at h
    obtain ⟨td, rest⟩ := pr
    dsimp only at h
    cases h2 : promptLoop
        (fun s => (["GLACIER", "GLACIER_IR"] : List String).contains s) rest with
    | none =>
      rw [h2] at h
      simp at h
    | some pr2 =>
      rw [h2] at h
      obtain ⟨s2, rest2⟩ := pr2
      simp only [Option.some.injEq, Prod.mk.injEq] at h
      obtain ⟨hd, hsc⟩ := h
      have v1 := promptLoop_valid _ inputs td rest h1
      have v2 := promptLoop_valid _ rest s2 rest2 h2
      simp at v1 v2
      constructor
      · rcases v1 with h30 | h60 | h90 | h180 | h360 <;>
          subst_vars <;> simp [parseNat]
      · rcases v2 with hg | hgi <;> subst_vars <;> simp

theorem lifecycle_input_returns_validated_values_witness :
    ((90 : Nat) = 30 ∨ (90 : Nat) = 60 ∨ (90 : Nat) = 90 ∨ (90 : Nat) = 180 ∨
      (90 : Nat) = 360) ∧
    (("GLACIER" : String) = "GLACIER" ∨ ("GLACIER" : String) = "GLACIER_IR") :=
  lifecycle_input_returns_validated_values ["abc", "90", "FOO", "GLACIER"] 90 "GLACIER"
    (by rfl)

/-! ## Claim C5 -/

/-- The guard checker is monotone in the set of succeeded existence checks. -/
theorem putsGuardedFrom_mono :
    ∀ (tr : List S3Event) (seen seen2 : List (String × String)),
      (∀ x, seen.contains x = true → seen2.contains x = true) →
      putsGuardedFrom seen tr = true → putsGuardedFrom seen2 tr = true := by
  intro tr
  induction tr with
  | nil => intro seen seen2 _ _; rfl
  | cons e rest ih =>
    intro seen seen2 hsub h
    cases e with
    | headOk p b =>
      refine ih ((p, b) :: seen) ((p, b) :: seen2) ?_ h
      intro x hx
      simp only [List.contains_cons, Bool.or_eq_true] at hx ⊢
      rcases hx with hx | hx
      · exact Or.inl hx
      · exact Or.inr (hsub x hx)
    | headFail p b => exact ih seen seen2 hsub h
    | putLifecycle p b cfg ok =>
      simp only [putsGuardedFrom, Bool.and_eq_true] at h ⊢
      exact ⟨hsub _ h.1, ih seen seen2 hsub h.2⟩

/-- Every put in the profile sweep for one bucket is covered by the headOk
recorded just before it; any already-guarded continuation stays guarded. -/
theorem putsGuardedFrom_applyToBucketProfiles
    (buildCfg : String → LifecycleConfig) (env : S3Env) (bucket : String) :
    ∀ (ps : List String) (seen : List (String × String)) (k : List S3Event),
      putsGuardedFrom seen k = true →
      putsGuardedFrom seen
        ((applyToBucketProfiles buildCfg env bucket ps).1 ++ k) = true := by
  intro ps
  induction ps with
  | nil =>
    intro seen k hk
    simpa [applyToBucketProfiles] using hk
  | cons p ps ih =>
    intro seen k hk
    unfold applyToBucketProfiles
    have hsub : ∀ x, seen.contains x = true →
        ((p, bucket) :: seen).contains x = true := by
      intro x hx
      simp only [List.contains_cons, Bool.or_eq_true]
      exact Or.inr hx
    by_cases hh : env.headSucceeds p bucket = true
    · by_cases hp : env.putSucceeds p bucket = true
      · rw [if_pos hh, if_pos hp]
        have hk2 : putsGuardedFrom ((p, bucket) :: seen) k = true :=
          putsGuardedFrom_mono k seen ((p, bucket) :: seen) hsub hk
        have htail := ih ((p, bucket) :: seen) k hk2
        simp only [List.cons_append, putsGuardedFrom, Bool.and_eq_true]
        exact ⟨by simp, htail⟩
      · rw [if_pos hh, if_neg hp]
        have hk2 : putsGuardedFrom ((p, bucket) :: seen) k = true :=
          putsGuardedFrom_mono k seen ((p, bucket) :: seen) hsub hk
        simp only [List.cons_append, List.nil_append, putsGuardedFrom,
          Bool.and_eq_true]
        exact ⟨by simp, hk2⟩
    · rw [if_neg hh]
      simpa [putsGuardedFrom] using hk

/-- Every put in a whole run trace is preceded by the successful existence
check for the same profile and bucket. -/
theorem putsGuardedFrom_process_buckets
    (buildCfg : String → LifecycleConfig) (env : S3Env) (profiles : List String) :
    ∀ (rows : List (List String)) (seen : List (String × String))
      (k : List S3Event),
      putsGuardedFrom seen k = true →
      putsGuardedFrom seen
        ((process_buckets buildCfg env profiles rows).1 ++ k) = true := by
  intro rows
  induction rows with
  | nil => intro seen k hk; simpa [process_buckets] using hk
  | cons row rest ih =>
    intro seen k hk
    match row with
    | [] => simpa [process_buckets] using hk
    | f :: fs =>
      rw [process_buckets_cons]
      by_cases hb : strip f = ""
      · rw [if_pos hb]
        exact ih seen k hk
      · rw [if_neg hb]
        cases hr : (applyToBucketProfiles buildCfg env (strip f) profiles).2 with
        | true =>
          simp only [if_true]
          rw [List.append_assoc]
          exact putsGuardedFrom_applyToBucketProfiles buildCfg env (strip f)
            profiles seen _ (ih seen k hk)
        | false =>
          simp only [Bool.false_eq_true, if_false]
          exact putsGuardedFrom_applyToBucketProfiles buildCfg env (strip f)
            profiles seen k hk

/-- A put event in the profile sweep for one bucket can only occur when the
existence check for its profile and bucket succeeds. -/
theorem put_mem_applyToBucketProfiles
    (buildCfg : String → LifecycleConfig) (env : S3Env) (bucket : String) :
    ∀ (ps : List String) (p b : String) (cfg : LifecycleConfig) (ok : Bool),
      S3Event.putLifecycle p b cfg ok ∈
        (applyToBucketProfiles buildCfg env bucket ps).1 →
      env.headSucceeds p b = true := by
  intro ps
  induction ps with
  | nil =>
    intro p b cfg ok h
    simp [applyToBucketProfiles] at h
  | cons q qs ih =>
    intro p b cfg ok h
    unfold applyToBucketProfiles at h
    by_cases hh : env.headSucceeds q bucket = true
    · by_cases hp : env.putSucceeds q bucket = true
      · rw [if_pos hh, if_pos hp] at h
        simp at h
        rcases h with ⟨h1, h2, _, _⟩ | h
        · subst h1; subst h2; exact hh
        · exact ih p b cfg ok h
      · rw [if_pos hh, if_neg hp] at h
        simp at h
        obtain ⟨h1, h2, _, _⟩ := h
        subst h1; subst h2; exact hh
    · rw [if_neg hh] at h
      simp at h

/-- A put event anywhere in a run trace can only occur when the existence
check for its profile and bucket succeeds. -/
theorem put_mem_process_buckets
    (buildCfg : String → LifecycleConfig) (env : S3Env) (profiles : List String) :
    ∀ (rows : List (List String)) (p b : String) (cfg : LifecycleConfig) (ok : Bool),
      S3Event.putLifecycle p b cfg ok ∈ (process_buckets buildCfg env profiles rows).1 →
      env.headSucceeds p b = true := by
  intro rows
  induction rows with
  | nil => intro p b cfg ok h; simp [process_buckets] at h
  | cons row rest ih =>
    intro p b cfg ok h
    match row with
    | [] => simp [process_buckets] at h
    | f :: fs =>
      rw [process_buckets_cons] at h
      by_cases hb : strip f = ""
      · rw [if_pos hb] at h
        exact ih p b cfg ok h
      · rw [if_neg hb] at h
        cases hr : (applyToBucketProfiles buildCfg env (strip f) profiles).2 with
        | true =>
          rw [hr] at h
          simp only [eq_self_iff_true, if_true] at h
          rw [List.mem_append] at h
          rcases h with h | h
          · exact put_mem_applyToBucketProfiles buildCfg env (strip f)
              profiles p b cfg ok h
          · exact ih p b cfg ok h
        | false =>
          rw [hr] at h
          simp only [Bool.false_eq_true, if_false] at h
          exact put_mem_applyToBucketProfiles buildCfg env (strip f)
            profiles p b cfg ok h

/-- A failed existence check in the profile sweep pins down its cause and
aborts the sweep. -/
theorem headFail_mem_applyToBucketProfiles
    (buildCfg : String → LifecycleConfig) (env : S3Env) (bucket : String) :
    ∀ (ps : List String) (p b : String),
      S3Event.headFail p b ∈ (applyToBucketProfiles buildCfg env bucket ps).1 →
      env.headSucceeds p b = false ∧
      (applyToBucketProfiles buildCfg env bucket ps).2 = false := by
  intro ps
  induction ps with
  | nil => intro p b h; simp [applyToBucketProfiles] at h
  | cons q qs ih =>
    intro p b h
    unfold applyToBucketProfiles at h ⊢
    by_cases hh : env.headSucceeds q bucket = true
    · by_cases hp : env.putSucceeds q bucket = true
      · rw [if_pos hh, if_pos hp] at h ⊢
        simp at h
        refine ⟨(ih p b h).1, ?_⟩
        simpa using (ih p b h).2
      · rw [if_pos hh, if_neg hp] at h
        simp at h
    · rw [if_neg hh] at h ⊢
      simp at h
      obtain ⟨h1, h2⟩ := h
      subst h1; subst h2
      simp [Bool.not_eq_true] at hh
      exact ⟨hh, rfl⟩

/-- A failed existence check anywhere in a run trace pins down its cause
and aborts the run. -/
theorem headFail_mem_process_buckets
    (buildCfg : String → LifecycleConfig) (env : S3Env) (profiles : List String) :
    ∀ (rows : List (List String)) (p b : String),
      S3Event.headFail p b ∈ (process_buckets buildCfg env profiles rows).1 →
      env.headSucceeds p b = false ∧
      (process_buckets buildCfg env profiles rows).2 = false := by
  intro rows
  induction rows with
  | nil => intro p b h; simp [process_buckets] at h
  | cons row rest ih =>
    intro p b h
    match row with
    | [] => simp [process_buckets] at h
    | f :: fs =>
      rw [process_buckets_cons] at h ⊢
      by_cases hb : strip f = ""
      · rw [if_pos hb] at h ⊢
        exact ih p b h
      · rw [if_neg hb] at h ⊢
        cases hr : (applyToBucketProfiles buildCfg env (strip f) profiles).2 with
        | true =>
          rw [hr] at h
          simp only [eq_self_iff_true, if_true] at h ⊢
          rw [List.mem_append] at h
          rcases h with h | h
          · exact absurd
              (headFail_mem_applyToBucketProfiles buildCfg env (strip f)
                profiles p b h).2 (by simp [hr])
          · refine ⟨(ih p b h).1, ?_⟩
            simpa using (ih p b h).2
        | false =>
          rw [hr] at h
          simp only [Bool.false_eq_true, if_false] at h ⊢
          exact ⟨(headFail_mem_applyToBucketProfiles buildCfg env (strip f)
            profiles p b h).1, trivial⟩

/-- C5: every put_bucket_lifecycle_configuration call in a run trace comes
after a successful head_bucket for the same profile and bucket (the guard
checker accepts the whole trace, and any put event implies the existence
check succeeds); a target whose existence check fails is recorded as a
failure, aborts the run, and never receives a mutation. -/
theorem s3_mutation_only_after_successful_existence_check
    (buildCfg : String → LifecycleConfig) (env : S3Env)
    (profiles : List String) (rows : List (List String)) :
    putsGuardedFrom [] (process_buckets buildCfg env profiles rows).1 = true ∧
    (∀ (p b : String) (cfg : LifecycleConfig) (ok : Bool),
      S3Event.putLifecycle p b cfg ok ∈ (process_buckets buildCfg env profiles rows).1 →
      env.headSucceeds p b = true) ∧
    (∀ p b : String,
      S3Event.headFail p b ∈ (process_buckets buildCfg env profiles rows).1 →
      env.headSucceeds p b = false ∧
      (process_buckets buildCfg env profiles rows).2 = false ∧
      ∀ (cfg : LifecycleConfig) (ok : Bool),
        S3Event.putLifecycle p b cfg ok ∉ (process_buckets buildCfg env profiles rows).1) := by
  refine ⟨?_, ?_, ?_⟩
  · have := putsGuardedFrom_process_buckets buildCfg env profiles rows [] [] rfl
    simpa using this
  · intro p b cfg ok h
    exact put_mem_process_buckets buildCfg env profiles rows p b cfg ok h
  · intro p b h
    have hf := headFail_mem_process_buckets buildCfg env profiles rows p b h
    refine ⟨hf.1, hf.2, ?_⟩
    intro cfg ok hput
    have := put_mem_process_buckets buildCfg env profiles rows p b cfg ok hput
    rw [this] at hf
    exact absurd hf.1 (by simp)

theorem s3_mutation_only_after_successful_existence_check_witness :
    putsGuardedFrom [] (process_buckets create_lifecycle_policy_expire envB2Fails
      ["p"] [["b1"], ["b2"]]).1 = true ∧
    envB2Fails.headSucceeds "p" "b1" = true ∧
    (envB2Fails.headSucceeds "p" "b2" = false ∧
      (process_buckets create_lifecycle_policy_expire envB2Fails
        ["p"] [["b1"], ["b2"]]).2 = false ∧
      S3Event.putLifecycle "p" "b2" (create_lifecycle_policy_expire "b2") true ∉
        (process_buckets create_lifecycle_policy_expire envB2Fails
          ["p"] [["b1"], ["b2"]]).1) := by
  have h := s3_mutation_only_after_successful_existence_check
    create_lifecycle_policy_expire envB2Fails ["p"] [["b1"], ["b2"]]
  refine ⟨h.1, ?_, ?_⟩
  · exact h.2.1 "p" "b1" (create_lifecycle_policy_expire "b1") true (by decide)
  · have h3 := h.2.2 "p" "b2" (by decide)
    exact ⟨h3.1, h3.2.1, h3.2.2 (create_lifecycle_policy_expire "b2") true⟩

/-! ## Claim C9 -/

/-- One step of the targeted page loop. -/
theorem processGroups_cons (env : CwEnv) (p r : String) (lg : LogGroup)
    (rest : List LogGroup) :
    processGroups env p r (lg :: rest) =
      if (processRecord env p r lg).2 then
        ((processRecord env p r lg).1 ++ (processGroups env p r rest).1,
         (processGroups env p r rest).2)
      else ((processRecord env p r lg).1, false) := rfl

/-- One step of the targeted pagination loop. -/
theorem processPages_cons (env : CwEnv) (p r : String) (page : List LogGroup)
    (rest : List (List LogGroup)) :
    processPages env p r (page :: rest) =
      if (processGroups env p r page).2 then
        ((processGroups env p r page).1 ++ (processPages env p r rest).1,
         (processPages env p r rest).2)
      else ((processGroups env p r page).1, false) := rfl

/-- One step of the region loop. -/
theorem runRegions_cons (regionFn : String → String → List CwEvent × Bool)
    (p r : String) (rs : List String) :
    runRegions regionFn p (r :: rs) =
      if (regionFn p r).2 then
        (CwEvent.enterRegion p r :: (regionFn p r).1 ++ (runRegions regionFn p rs).1,
         (runRegions regionFn p rs).2)
      else (CwEvent.enterRegion p r :: (regionFn p r).1, false) := rfl

/-- One step of the profile loop. -/
theorem process_log_groups_cons (regionFn : String → String → List CwEvent × Bool)
    (regions : List String) (p : String) (ps : List String) :
    process_log_groups regionFn regions (p :: ps) =
      ((runRegions regionFn p regions).1 ++ (process_log_groups regionFn regions ps).1,
       (runRegions regionFn p regions).2 && (process_log_groups regionFn regions ps).2) := rfl

/-- The region trace of the targeted variant is the trace of its delivered
pages, whether or not pagination then fails. -/
theorem set_retention_target_fst (env : CwEnv) (p r : String) :
    (set_retention_for_log_groups_target env p r).1 =
      (processPages env p r (env.pages p r)).1 := by
  unfold set_retention_for_log_groups_target
  cases h : (processPages env p r (env.pages p r)).2 <;> simp [h]

/-- A put event of the per-record step carries RETENTION_DAYS and stems
from a record observed at TARGET_RETENTION_DAYS. -/
theorem put_mem_processRecord (env : CwEnv) (p r : String) (lg : LogGroup)
    (p2 r2 g : String) (d : Nat) (ok : Bool)
    (h : CwEvent.putRetention p2 r2 g d ok ∈ (processRecord env p r lg).1) :
    p2 = p ∧ r2 = r ∧ g = lg.logGroupName ∧ d = RETENTION_DAYS ∧
    lg.retentionInDays = some TARGET_RETENTION_DAYS := by
  unfold processRecord at h
  by_cases hm : retentionMatches lg TARGET_RETENTION_DAYS = true
  · rw [if_pos hm] at h
    rw [retentionMatches_eq_true_iff] at hm
    by_cases hp : env.putOk p r lg.logGroupName = true
    · rw [if_pos hp] at h
      simp at h
      obtain ⟨h1, h2, h3, h4, _⟩ := h
      exact ⟨h1, h2, h3, h4, hm⟩
    · rw [if_neg hp] at h
      simp at h
      obtain ⟨h1, h2, h3, h4, _⟩ := h
      exact ⟨h1, h2, h3, h4, hm⟩
  · rw [if_neg hm] at h
    simp at h

/-- Lift to one page. -/
theorem put_mem_processGroups (env : CwEnv) (p r : String) :
    ∀ (groups : List LogGroup) (p2 r2 g : String) (d : Nat) (ok : Bool),
      CwEvent.putRetention p2 r2 g d ok ∈ (processGroups env p r groups).1 →
      p2 = p ∧ r2 = r ∧ d = RETENTION_DAYS ∧
      ∃ lg ∈ groups, lg.logGroupName = g ∧
        lg.retentionInDays = some TARGET_RETENTION_DAYS := by
  intro groups
  induction groups with
  | nil => intro p2 r2 g d ok h; simp [processGroups] at h
  | cons lg rest ih =>
    intro p2 r2 g d ok h
    rw [processGroups_cons] at h
    cases hs : (processRecord env p r lg).2 with
    | true =>
      rw [hs] at h
      simp only [eq_self_iff_true, if_true] at h
      rw [List.mem_append] at h
      rcases h with h | h
      · obtain ⟨h1, h2, h3, h4, h5⟩ := put_mem_processRecord env p r lg p2 r2 g d ok h
        exact ⟨h1, h2, h4, lg, List.mem_cons_self lg rest, h3.symm, h5⟩
      · obtain ⟨h1, h2, h3, lg2, hlg2, h4, h5⟩ := ih p2 r2 g d ok h
        exact ⟨h1, h2, h3, lg2, List.mem_cons_of_mem lg hlg2, h4, h5⟩
    | false =>
      rw [hs] at h
      simp only [Bool.false_eq_true, if_false] at h
      obtain ⟨h1, h2, h3, h4, h5⟩ := put_mem_processRecord env p r lg p2 r2 g d ok h
      exact ⟨h1, h2, h4, lg, List.mem_cons_self lg rest, h3.symm, h5⟩

/-- Lift to the delivered pages. -/
theorem put_mem_processPages (env : CwEnv) (p r : String) :
    ∀ (pages : List (List LogGroup)) (p2 r2 g : String) (d : Nat) (ok : Bool),
      CwEvent.putRetention p2 r2 g d ok ∈ (processPages env p r pages).1 →
      p2 = p ∧ r2 = r ∧ d = RETENTION_DAYS ∧
      ∃ page ∈ pages, ∃ lg ∈ page, lg.logGroupName = g ∧
        lg.retentionInDays = some TARGET_RETENTION_DAYS := by
  intro pages
  induction pages with
  | nil => intro p2 r2 g d ok h; simp [processPages] at h
  | cons page rest ih =>
    intro p2 r2 g d ok h
    rw [processPages_cons] at h
    cases hs : (processGroups env p r page).2 with
    | true =>
      rw [hs] at h
      simp only [eq_self_iff_true, if_true] at h
      rw [List.mem_append] at h
      rcases h with h | h
      · obtain ⟨h1, h2, h3, lg, hlg, h4, h5⟩ := put_mem_processGroups env p r page p2 r2 g d ok h
        exact ⟨h1, h2, h3, page, List.mem_cons_self page rest, lg, hlg, h4, h5⟩
      · obtain ⟨h1, h2, h3, pg, hpg, lg, hlg, h4, h5⟩ := ih p2 r2 g d ok h
        exact ⟨h1, h2, h3, pg, List.mem_cons_of_mem page hpg, lg, hlg, h4, h5⟩
    | false =>
      rw [hs] at h
      simp only [Bool.false_eq_true, if_false] at h
      obtain ⟨h1, h2, h3, lg, hlg, h4, h5⟩ := put_mem_processGroups env p r page p2 r2 g d ok h
      exact ⟨h1, h2, h3, page, List.mem_cons_self page rest, lg, hlg, h4, h5⟩

/-- Lift to the region loop of the targeted script. -/
theorem put_mem_runRegions_target (env : CwEnv) (p : String) :
    ∀ (rs : List String) (p2 r2 g : String) (d : Nat) (ok : Bool),
      CwEvent.putRetention p2 r2 g d ok ∈
        (runRegions (set_retention_for_log_groups_target env) p rs).1 →
      p2 = p ∧ d = RETENTION_DAYS ∧
      ∃ page ∈ env.pages p2 r2, ∃ lg ∈ page, lg.logGroupName = g ∧
        lg.retentionInDays = some TARGET_RETENTION_DAYS := by
  intro rs
  induction rs with
  | nil => intro p2 r2 g d ok h; simp [runRegions] at h
  | cons r rest ih =>
    intro p2 r2 g d ok h
    rw [runRegions_cons] at h
    have hregion : CwEvent.putRetention p2 r2 g d ok ∈
        (set_retention_for_log_groups_target env p r).1 →
        p2 = p ∧ d = RETENTION_DAYS ∧
        ∃ page ∈ env.pages p2 r2, ∃ lg ∈ page, lg.logGroupName = g ∧
          lg.retentionInDays = some TARGET_RETENTION_DAYS := by
      intro hm
      rw [set_retention_target_fst] at hm
      obtain ⟨h1, h2, h3, pg, hpg, lg, hlg, h4, h5⟩ :=
        put_mem_processPages env p r (env.pages p r) p2 r2 g d ok hm
      subst h1; subst h2
      exact ⟨rfl, h3, pg, hpg, lg, hlg, h4, h5⟩
    cases hs : (set_retention_for_log_groups_target env p r).2 with
    | true =>
      rw [hs] at h
      simp only [eq_self_iff_true, if_true] at h
      rcases List.mem_cons.mp h with h | h
      · exact absurd h (by simp)
      · rcases List.mem_append.mp h with h | h
        · exact hregion h
        · exact ih p2 r2 g d ok h
    | false =>
      rw [hs] at h
      simp only [Bool.false_eq_true, if_false] at h
      rcases List.mem_cons.mp h with h | h
      · exact absurd h (by simp)
      · exact hregion h

/-- C9: in the conditional (targeted) retention variant, the only
state-changing call a whole run ever issues is put_retention_policy with
retentionInDays = RETENTION_DAYS (30), and only for a log group that was
observed with retentionInDays exactly TARGET_RETENTION_DAYS (14); by
contraposition every log group observed with any other (or no) retention
value receives no call. -/
theorem targeted_run_puts_thirty_only_on_fourteen
    (env : CwEnv) (regions : List String) :
    ∀ (profiles : List String) (p r g : String) (d : Nat) (ok : Bool),
      CwEvent.putRetention p r g d ok ∈
        (process_log_groups (set_retention_for_log_groups_target env)
          regions profiles).1 →
      d = RETENTION_DAYS ∧
      ∃ page ∈ env.pages p r, ∃ lg ∈ page, lg.logGroupName = g ∧
        lg.retentionInDays = some TARGET_RETENTION_DAYS := by
  intro profiles
  induction profiles with
  | nil => intro p r g d ok h; simp [process_log_groups] at h
  | cons q qs ih =>
    intro p r g d ok h
    rw [process_log_groups_cons] at h
    rcases List.mem_append.mp h with h | h
    · obtain ⟨h1, h2, rest⟩ := put_mem_runRegions_target env q regions p r g d ok h
      exact ⟨h2, rest⟩
    · exact ih p r g d ok h

theorem targeted_run_puts_thirty_only_on_fourteen_witness :
    ((30 : Nat) = RETENTION_DAYS ∧
      ∃ page ∈ cwEnvListingFails.pages "p" "r1", ∃ lg ∈ page,
        lg.logGroupName = "g1" ∧
        lg.retentionInDays = some TARGET_RETENTION_DAYS) :=
  targeted_run_puts_thirty_only_on_fourteen cwEnvListingFails ["r1"] ["p"]
    "p" "r1" "g1" 30 true (by decide)

end CostOpt
